import Mathlib

/-!
Verification development for the tic-tomoto pomodoro application.

The definitions below are a shallow embedding of the timer engine
(`src/renderer/src/stores/timerStore.ts`), the session completion pipeline
(`completeSession` in the same file), the schema migration logic
(`src/shared/schema.ts`) and the main-process write queue
(`DatabaseManager` in `src/main/index.ts`).

Modelling conventions:
- JavaScript numbers that the code keeps as non-negative integers
  (seconds, epoch milliseconds, counters) are modelled as `Nat`;
  `Math.max(0, a - b)` coincides with truncated `Nat` subtraction.
- JavaScript truthiness tests on numbers (`if (state.endAt)`) are modelled
  explicitly: `none` and `some 0` are falsy.
- `Record<string, number>` objects are modelled as association lists with
  lookup defaulting to 0 (matching the code's `(m[k] || 0)` accesses).
- Asynchronous wall-clock reads (`Date.now()`, date formatting) are passed
  in as explicit parameters (`now`, the period key strings).
- Volume settings stored as JS floats (0.8, 0.5) are modelled in tenths.
-/

namespace TicTomoto

/-- JS `Math.ceil(ms / 1000)` on a non-negative integer count of milliseconds. -/
def ceilSeconds (ms : Nat) : Nat := (ms + 999) / 1000

/-- JS `Math.ceil(Math.max(0, endAt - now) / 1000)`: the deadline-derived
remaining seconds used by the drift-correction code. -/
def ceilRemaining (endAt now : Nat) : Nat := ceilSeconds (endAt - now)

/-- JS truthiness of an optional number: `undefined` and `0` are falsy. -/
def numTruthy : Option Nat → Bool
  | none => false
  | some n => n != 0

/-- JS truthiness of an optional string: `undefined` and `""` are falsy. -/
def strTruthy : Option String → Bool
  | none => false
  | some s => s != ""

/-- Lookup in a JS object used as a number map: `(m[k] || 0)`. -/
def recGet (m : List (String × Nat)) (k : String) : Nat :=
  match m.find? (fun p => p.1 == k) with
  | some p => p.2
  | none => 0

/-- JS object assignment `m[k] = v` (replace the binding or append it). -/
def recSet (m : List (String × Nat)) (k : String) (v : Nat) : List (String × Nat) :=
  match m with
  | [] => [(k, v)]
  | p :: rest => if p.1 == k then (k, v) :: rest else p :: recSet rest k v

/-- The statistics counter bump `m[k] = (m[k] || 0) + 1`. -/
def recBump (m : List (String × Nat)) (k : String) : List (String × Nat) :=
  recSet m k (recGet m k + 1)

/-- The `TimerMode` enum of `types/timer.ts`
(`'work' | 'short_break' | 'long_break'`). -/
inductive TimerMode where
  | work
  | shortBreak
  | longBreak
deriving DecidableEq, Repr

/-- The `TimerState` managed by the zustand store in `timerStore.ts`. -/
structure TimerState where
  mode : TimerMode
  timeLeft : Nat
  totalTime : Nat
  isRunning : Bool
  isPaused : Bool
  currentSession : Nat
  totalSessions : Nat
  currentTaskId : Option String
  endAt : Option Nat
deriving DecidableEq, Repr

/-- The `DEFAULT_TIMES` table and `getTimeForMode` from `timerStore.ts`: the built-in
default durations in seconds (25 min work, 5 min short break, 15 min long
break).  Note this reads the hard-coded constants, not the user settings. -/
def getTimeForMode : TimerMode → Nat
  | TimerMode.work => 25 * 60
  | TimerMode.shortBreak => 5 * 60
  | TimerMode.longBreak => 15 * 60

/-- Operation `start()`: mark running, clear paused, set the wall-clock deadline
`endAt = now + timeLeft * 1000`. -/
def start (s : TimerState) (now : Nat) : TimerState :=
  { s with isRunning := true, isPaused := false, endAt := some (now + s.timeLeft * 1000) }

/-- Operation `pause()`: stop running, mark paused, clear the deadline. -/
def pause (s : TimerState) : TimerState :=
  { s with isRunning := false, isPaused := true, endAt := none }

/-- Operation `stop()`: clear both flags, restore `timeLeft` to `totalTime`, clear the
deadline. -/
def stop (s : TimerState) : TimerState :=
  { s with isRunning := false, isPaused := false, timeLeft := s.totalTime, endAt := none }

/-- Operation `reset()`: recompute the duration for the current mode via
`getTimeForMode` and clear the flags and the deadline. -/
def reset (s : TimerState) : TimerState :=
  let newTime := getTimeForMode s.mode
  { s with isRunning := false, isPaused := false, timeLeft := newTime,
           totalTime := newTime, endAt := none }

/-- The tick handler registered in `initialize()` (`onTick` callback):
while running with time left, take the naive decrement but overwrite it
with the deadline-derived value when `endAt` is (truthily) set.  The
asynchronous `completeSession` dispatch that fires when the result reaches
zero is modelled separately by `completeSession`. -/
def onTick (s : TimerState) (now : Nat) : TimerState :=
  if s.isRunning = true ∧ 0 < s.timeLeft then
    let newTimeLeft :=
      match s.endAt with
      | some e => if e = 0 then s.timeLeft - 1 else ceilRemaining e now
      | none => s.timeLeft - 1
    { s with timeLeft := newTimeLeft }
  else s

/-- The `Task` record of `shared/schema.ts`.  `priority` and `status` are
string-literal unions in the source and kept as strings here. -/
structure Task where
  id : String
  title : String
  description : Option String
  category : Option String
  priority : String
  status : String
  estimatedPomodoros : Nat
  completedPomodoros : Nat
  isCompleted : Bool
  createdAt : Nat
  updatedAt : Nat
  completedAt : Option Nat
  tags : Option (List String)
deriving DecidableEq, Repr

/-- The `settings` record of `shared/schema.ts`.  Durations are minutes;
the two volume fields (JS floats in [0,1]) are stored in tenths. -/
structure Settings where
  workDuration : Nat
  shortBreakDuration : Nat
  longBreakDuration : Nat
  autoStartBreaks : Bool
  autoStartPomodoros : Bool
  longBreakInterval : Nat
  alarmSound : String
  alarmVolumeTenths : Nat
  tickingSound : String
  tickingVolumeTenths : Nat
  darkMode : String
  minimizeToTray : Bool
deriving DecidableEq, Repr

/-- The `stats` record of `shared/schema.ts`. -/
structure Stats where
  totalPomodoros : Nat
  totalWorkTime : Nat
  dailyPomodoros : List (String × Nat)
  weeklyPomodoros : List (String × Nat)
  monthlyPomodoros : List (String × Nat)
deriving DecidableEq, Repr

/-- The `timer` sub-record persisted inside the document. -/
structure TimerDoc where
  mode : TimerMode
  timeLeft : Nat
  totalTime : Nat
  isRunning : Bool
  isPaused : Bool
  endAt : Option Nat
deriving DecidableEq, Repr

/-- The aggregate `Schema` document of `shared/schema.ts`. -/
structure Schema where
  tasks : List Task
  timer : TimerDoc
  settings : Settings
  stats : Stats
  version : Nat
deriving DecidableEq, Repr

/-- The `DEFAULT_DATA` document from `shared/schema.ts`. -/
def DEFAULT_DATA : Schema :=
  { tasks := []
    timer :=
      { mode := TimerMode.work
        timeLeft := 25 * 60
        totalTime := 25 * 60
        isRunning := false
        isPaused := false
        endAt := none }
    settings :=
      { workDuration := 25
        shortBreakDuration := 5
        longBreakDuration := 15
        autoStartBreaks := false
        autoStartPomodoros := false
        longBreakInterval := 4
        alarmSound := "bell"
        alarmVolumeTenths := 8
        tickingSound := "none"
        tickingVolumeTenths := 5
        darkMode := "auto"
        minimizeToTray := true }
    stats :=
      { totalPomodoros := 0
        totalWorkTime := 0
        dailyPomodoros := []
        weeklyPomodoros := []
        monthlyPomodoros := [] }
    version := 1 }

/-- The statistics update of `completeSession`: only a completed WORK
session credits `totalPomodoros`, `totalWorkTime` and the three period
counters; the period key strings stand for the `date-fns` formatted keys. -/
def updateStats (mode : TimerMode) (totalTime : Nat) (st : Stats)
    (dailyKey weekKey monthKey : String) : Stats :=
  if mode = TimerMode.work then
    { st with
      totalPomodoros := st.totalPomodoros + 1
      totalWorkTime := st.totalWorkTime + totalTime
      dailyPomodoros := recBump st.dailyPomodoros dailyKey
      weeklyPomodoros := recBump st.weeklyPomodoros weekKey
      monthlyPomodoros := recBump st.monthlyPomodoros monthKey }
  else st

/-- The task update of `completeSession`: rebuild the referenced task with
`completedPomodoros` incremented only for WORK completions and `updatedAt`
bumped unconditionally; mark the task completed when a WORK completion
reaches the estimate. -/
def creditTask (task : Task) (mode : TimerMode) (now : Nat) : Task :=
  let updated :=
    { task with
      completedPomodoros :=
        task.completedPomodoros + (if mode = TimerMode.work then 1 else 0)
      updatedAt := now }
  if mode = TimerMode.work ∧ task.estimatedPomodoros ≤ updated.completedPomodoros then
    { updated with isCompleted := true, completedAt := some now }
  else updated

/-- The `if (state.currentTaskId)` / `findIndex` block of `completeSession`:
rewrite the first task whose id matches the (truthy) current task id. -/
def updateTasks (tasks : List Task) (currentTaskId : Option String)
    (mode : TimerMode) (now : Nat) : List Task :=
  match currentTaskId with
  | none => tasks
  | some tid =>
    if tid = "" then tasks
    else
      match tasks.findIdx? (fun t => t.id == tid) with
      | none => tasks
      | some idx =>
        match tasks.get? idx with
        | none => tasks
        | some task => tasks.set idx (creditTask task mode now)

/-- The next-phase computation of `completeSession`: after a WORK session,
choose a long break when the post-increment session counter is divisible by
`longBreakInterval` (`|| 4` for a falsy interval); after any break, go back
to work.  The second component is the new total time in seconds taken from
the settings durations (minutes). -/
def computeNext (prevMode : TimerMode) (next : TimerState) (settings : Settings) :
    TimerMode × Nat :=
  if prevMode = TimerMode.work then
    let interval := if settings.longBreakInterval = 0 then 4 else settings.longBreakInterval
    if next.currentSession % interval = 0 then
      (TimerMode.longBreak, settings.longBreakDuration * 60)
    else
      (TimerMode.shortBreak, settings.shortBreakDuration * 60)
  else
    (TimerMode.work, settings.workDuration * 60)

/-- Operation `completeSession()` from `timerStore.ts`, as a pure function of the
pre-completion store state `s`, the document `data` read from storage, the
wall clock `now` (epoch ms) and the formatted period keys.  Returns the
final store state and the document written back.

Faithful to the source's order: the session counters are bumped and the
flags cleared first (`state` keeps the pre-completion snapshot used for all
mode tests); statistics and the referenced task are updated from that
snapshot; the next phase is computed from the post-increment state; finally
the auto-start decision may restart the timer. -/
def completeSession (s : TimerState) (data : Schema) (now : Nat)
    (dailyKey weekKey monthKey : String) : TimerState × Schema :=
  let s1 :=
    if s.mode = TimerMode.work then
      { s with currentSession := s.currentSession + 1
               totalSessions := s.totalSessions + 1
               isRunning := false, isPaused := false, endAt := none }
    else
      { s with isRunning := false, isPaused := false, endAt := none }
  let stats1 := updateStats s.mode s.totalTime data.stats dailyKey weekKey monthKey
  let tasks1 := updateTasks data.tasks s.currentTaskId s.mode now
  let nxt := computeNext s.mode s1 data.settings
  let s2 :=
    { s1 with mode := nxt.1, totalTime := nxt.2, timeLeft := nxt.2,
              isRunning := false, isPaused := false, endAt := none }
  let shouldAutoStart :=
    (s.mode = TimerMode.work ∧ data.settings.autoStartBreaks = true) ∨
      (s.mode ≠ TimerMode.work ∧ data.settings.autoStartPomodoros = true)
  let s3 :=
    if shouldAutoStart then
      { s2 with isRunning := true, isPaused := false,
                endAt := some (now + s2.timeLeft * 1000) }
    else s2
  (s3,
    { data with
      tasks := tasks1
      stats := stats1
      timer :=
        { mode := s3.mode, timeLeft := s3.timeLeft, totalTime := s3.totalTime,
          isRunning := s3.isRunning, isPaused := s3.isPaused, endAt := s3.endAt } })

/-- The shape `initialize()` reads from the persisted document's `timer`
field: `totalTime` and `endAt` are guarded with `typeof ... === 'number'`
in the source, so they are optional here. -/
structure LoadedTimer where
  mode : TimerMode
  totalTime : Option Nat
  isRunning : Bool
  isPaused : Bool
  endAt : Option Nat
deriving DecidableEq, Repr

/-- The state-restoration part of `initialize()` from `timerStore.ts`:
copy the persisted mode/flags/deadline onto the previous in-memory state
(`timeLeft` is not loaded), then, when the loaded state claims to be
running with a truthy `endAt`, either resume with the drift-corrected
remaining time (when it is positive and at most `totalTime`) or reset to a
stopped state with `timeLeft = totalTime`. -/
def initializeStore (prev : TimerState) (timer : LoadedTimer) (now : Nat) : TimerState :=
  let s1 : TimerState :=
    { prev with
      mode := timer.mode
      totalTime := timer.totalTime.getD prev.totalTime
      isRunning := timer.isRunning
      isPaused := timer.isPaused
      endAt := timer.endAt }
  if s1.isRunning = true ∧ numTruthy s1.endAt = true then
    let newTimeLeft := ceilRemaining (s1.endAt.getD 0) now
    if 0 < newTimeLeft ∧ newTimeLeft ≤ s1.totalTime then
      { s1 with timeLeft := newTimeLeft }
    else
      { s1 with isRunning := false, isPaused := false,
                timeLeft := s1.totalTime, endAt := none }
  else s1

/-- Written from the spec's words for comparison with `reset`: "the
configured duration for the current mode (the duration the settings specify
for that mode)", i.e. the settings durations (minutes) in seconds.  This is
what `completeSession` uses for the next phase, but not what `reset` uses. -/
def getTimeForModeFromSettings (settings : Settings) : TimerMode → Nat
  | TimerMode.work => settings.workDuration * 60
  | TimerMode.shortBreak => settings.shortBreakDuration * 60
  | TimerMode.longBreak => settings.longBreakDuration * 60

/-! ### Schema migration (`shared/schema.ts`)

`migrateData` receives an arbitrary parsed JSON object typed
`Partial<Schema>`; the `Partial…` structures below model such documents,
with `none` standing for an absent (or `undefined`) field.  JS `x || d`
defaulting treats `0` and `""` as absent, which `numOr`/`strOr` mirror. -/

/-- JS `x || d` for an optional string field (`""` is falsy). -/
def strOr (o : Option String) (d : String) : String :=
  match o with
  | some s => if s = "" then d else s
  | none => d

/-- JS `x || d` for an optional number field (`0` is falsy). -/
def numOr (o : Option Nat) (d : Nat) : Nat :=
  match o with
  | some n => if n = 0 then d else n
  | none => d

/-- A possibly-partial task object, as found in a legacy document. -/
structure PartialTask where
  id : Option String
  title : Option String
  description : Option String
  category : Option String
  priority : Option String
  status : Option String
  estimatedPomodoros : Option Nat
  completedPomodoros : Option Nat
  isCompleted : Option Bool
  createdAt : Option Nat
  updatedAt : Option Nat
  completedAt : Option Nat
  tags : Option (List String)
deriving DecidableEq, Repr

/-- A possibly-partial persisted timer object. -/
structure PartialTimer where
  mode : Option TimerMode
  timeLeft : Option Nat
  totalTime : Option Nat
  isRunning : Option Bool
  isPaused : Option Bool
  endAt : Option Nat
deriving DecidableEq, Repr

/-- A possibly-partial settings object. -/
structure PartialSettings where
  workDuration : Option Nat
  shortBreakDuration : Option Nat
  longBreakDuration : Option Nat
  autoStartBreaks : Option Bool
  autoStartPomodoros : Option Bool
  longBreakInterval : Option Nat
  alarmSound : Option String
  alarmVolumeTenths : Option Nat
  tickingSound : Option String
  tickingVolumeTenths : Option Nat
  darkMode : Option String
  minimizeToTray : Option Bool
deriving DecidableEq, Repr

/-- A possibly-partial statistics object. -/
structure PartialStats where
  totalPomodoros : Option Nat
  totalWorkTime : Option Nat
  dailyPomodoros : Option (List (String × Nat))
  weeklyPomodoros : Option (List (String × Nat))
  monthlyPomodoros : Option (List (String × Nat))
deriving DecidableEq, Repr

/-- A possibly-partial document (`Partial<Schema>`), the input of
`migrateData`. -/
structure PartialSchema where
  tasks : Option (List PartialTask)
  timer : Option PartialTimer
  settings : Option PartialSettings
  stats : Option PartialStats
  version : Option Nat
deriving DecidableEq, Repr

/-- The per-task mapping inside `migrateFromV0`; `now` stands for the
`Date.now()` calls used for the defaults. -/
def migrateTaskFromV0 (t : PartialTask) (now : Nat) : Task :=
  { id := strOr t.id (toString now)
    title := strOr t.title "Untitled Task"
    description := some (t.description.getD "")
    category := some (t.category.getD "")
    priority := strOr t.priority "medium"
    status := strOr t.status "pending"
    estimatedPomodoros := numOr t.estimatedPomodoros 1
    completedPomodoros := numOr t.completedPomodoros 0
    isCompleted := t.isCompleted.getD false
    createdAt := numOr t.createdAt now
    updatedAt := numOr t.updatedAt now
    completedAt := t.completedAt
    tags := some (t.tags.getD []) }

/-- The object spread `{...defaultTimer, ...oldTimer}`. -/
def mergeTimer (base : TimerDoc) (p : PartialTimer) : TimerDoc :=
  { mode := p.mode.getD base.mode
    timeLeft := p.timeLeft.getD base.timeLeft
    totalTime := p.totalTime.getD base.totalTime
    isRunning := p.isRunning.getD base.isRunning
    isPaused := p.isPaused.getD base.isPaused
    endAt := match p.endAt with | some e => some e | none => base.endAt }

/-- The object spread `{...defaultSettings, ...oldSettings}`. -/
def mergeSettings (base : Settings) (p : PartialSettings) : Settings :=
  { workDuration := p.workDuration.getD base.workDuration
    shortBreakDuration := p.shortBreakDuration.getD base.shortBreakDuration
    longBreakDuration := p.longBreakDuration.getD base.longBreakDuration
    autoStartBreaks := p.autoStartBreaks.getD base.autoStartBreaks
    autoStartPomodoros := p.autoStartPomodoros.getD base.autoStartPomodoros
    longBreakInterval := p.longBreakInterval.getD base.longBreakInterval
    alarmSound := p.alarmSound.getD base.alarmSound
    alarmVolumeTenths := p.alarmVolumeTenths.getD base.alarmVolumeTenths
    tickingSound := p.tickingSound.getD base.tickingSound
    tickingVolumeTenths := p.tickingVolumeTenths.getD base.tickingVolumeTenths
    darkMode := p.darkMode.getD base.darkMode
    minimizeToTray := p.minimizeToTray.getD base.minimizeToTray }

/-- The object spread `{...defaultStats, ...oldStats}`. -/
def mergeStats (base : Stats) (p : PartialStats) : Stats :=
  { totalPomodoros := p.totalPomodoros.getD base.totalPomodoros
    totalWorkTime := p.totalWorkTime.getD base.totalWorkTime
    dailyPomodoros := p.dailyPomodoros.getD base.dailyPomodoros
    weeklyPomodoros := p.weeklyPomodoros.getD base.weeklyPomodoros
    monthlyPomodoros := p.monthlyPomodoros.getD base.monthlyPomodoros }

/-- Function `migrateFromV0` from `shared/schema.ts`: start from a copy of
`DEFAULT_DATA` (so `version` becomes 1) and overwrite each section that is
present in the legacy document, mapping tasks field-by-field and merging
the timer/settings/stats objects over the defaults. -/
def migrateFromV0 (oldData : PartialSchema) (now : Nat) : Schema :=
  { tasks :=
      match oldData.tasks with
      | some ts => ts.map (fun t => migrateTaskFromV0 t now)
      | none => DEFAULT_DATA.tasks
    timer :=
      match oldData.timer with
      | some p => mergeTimer DEFAULT_DATA.timer p
      | none => DEFAULT_DATA.timer
    settings :=
      match oldData.settings with
      | some p => mergeSettings DEFAULT_DATA.settings p
      | none => DEFAULT_DATA.settings
    stats :=
      match oldData.stats with
      | some p => mergeStats DEFAULT_DATA.stats p
      | none => DEFAULT_DATA.stats
    version := DEFAULT_DATA.version }

/-- View a full task as a partial document task. -/
def Task.toPartial (t : Task) : PartialTask :=
  { id := some t.id, title := some t.title, description := t.description,
    category := t.category, priority := some t.priority, status := some t.status,
    estimatedPomodoros := some t.estimatedPomodoros,
    completedPomodoros := some t.completedPomodoros,
    isCompleted := some t.isCompleted, createdAt := some t.createdAt,
    updatedAt := some t.updatedAt, completedAt := t.completedAt, tags := t.tags }

/-- View a full document as a partial one (every section present). -/
def Schema.toPartial (s : Schema) : PartialSchema :=
  { tasks := some (s.tasks.map Task.toPartial)
    timer := some
      { mode := some s.timer.mode, timeLeft := some s.timer.timeLeft,
        totalTime := some s.timer.totalTime, isRunning := some s.timer.isRunning,
        isPaused := some s.timer.isPaused, endAt := s.timer.endAt }
    settings := some
      { workDuration := some s.settings.workDuration
        shortBreakDuration := some s.settings.shortBreakDuration
        longBreakDuration := some s.settings.longBreakDuration
        autoStartBreaks := some s.settings.autoStartBreaks
        autoStartPomodoros := some s.settings.autoStartPomodoros
        longBreakInterval := some s.settings.longBreakInterval
        alarmSound := some s.settings.alarmSound
        alarmVolumeTenths := some s.settings.alarmVolumeTenths
        tickingSound := some s.settings.tickingSound
        tickingVolumeTenths := some s.settings.tickingVolumeTenths
        darkMode := some s.settings.darkMode
        minimizeToTray := some s.settings.minimizeToTray }
    stats := some
      { totalPomodoros := some s.stats.totalPomodoros
        totalWorkTime := some s.stats.totalWorkTime
        dailyPomodoros := some s.stats.dailyPomodoros
        weeklyPomodoros := some s.stats.weeklyPomodoros
        monthlyPomodoros := some s.stats.monthlyPomodoros }
    version := some s.version }

/-- Function `migrateData` from `shared/schema.ts`.  A missing or falsy `version`
(`!('version' in data) || !data.version`) routes to `migrateFromV0`;
version 1 documents are returned as-is (the source's `data as Schema` cast
performs no filling); every other version yields the default document.
The source's initial `!data || typeof data !== 'object'` guard is outside
this model since the input is a document by type. -/
def migrateData (data : PartialSchema) (now : Nat) : PartialSchema :=
  if data.version = none ∨ data.version = some 0 then
    Schema.toPartial (migrateFromV0 data now)
  else
    match data.version with
    | some 1 => data
    | _ => Schema.toPartial DEFAULT_DATA

/-- Every top-level section of the document is populated. -/
def isCompleteDoc (d : PartialSchema) : Bool :=
  d.tasks.isSome && d.timer.isSome && d.settings.isSome && d.stats.isSome &&
    d.version.isSome

/-! ### The main-process write queue (`DatabaseManager` in `main/index.ts`)

`safeWrite(operation)` pushes a closure onto `writeQueue` and starts the
queue when `writeLock` is free; each closure takes the lock, applies
`operation` to the current document, writes the result, and on completion
releases the lock and synchronously starts the next queued closure.
JavaScript's single-threaded event loop makes "enqueue (and maybe start)"
and "finish (and maybe start next)" atomic; the `DBEvent` steps below are
exactly these two atomic transitions, interleaved arbitrarily. -/

/-- Observable events of the write queue: a `safeWrite(op)` call, or the
completion of the in-flight write (the resumption of its async closure,
scheduled by the event loop at an arbitrary later point). -/
inductive DBEvent where
  | call (op : Schema → Schema)
  | complete

/-- The mutable state of a `DatabaseManager`: the lock flag, the pending
queue, the in-flight writer, the stored document, and (for specification
purposes) the writers already completed, in completion order. -/
structure DBState where
  writeLock : Bool
  writeQueue : List (Schema → Schema)
  inFlight : Option (Schema → Schema)
  data : Schema
  done : List (Schema → Schema)

/-- A freshly initialized manager holding document `d`. -/
def dbInit (d : Schema) : DBState :=
  { writeLock := false, writeQueue := [], inFlight := none, data := d, done := [] }

/-- Method `processQueue()`: when writers are queued, shift the head and start it
(the started closure synchronously takes `writeLock`). -/
def startNextFromQueue (st : DBState) : DBState :=
  match st.writeQueue with
  | [] => st
  | h :: t => { st with writeLock := true, inFlight := some h, writeQueue := t }

/-- One atomic transition of `DatabaseManager`.  `call op` is
`safeWrite`'s synchronous part: push onto the queue, then `processQueue`
when the lock is free (shift the head and start it, taking the lock).
`complete` is the tail of the started closure: apply the operation to the
current document, store and write the result, then `finally` release the
lock and `processQueue` again. -/
def dbStep (st : DBState) (ev : DBEvent) : DBState :=
  match ev with
  | DBEvent.call op =>
    let pushed := { st with writeQueue := st.writeQueue ++ [op] }
    if st.writeLock then pushed else startNextFromQueue pushed
  | DBEvent.complete =>
    match st.inFlight with
    | none => st
    | some op =>
      startNextFromQueue
        { st with writeLock := false, inFlight := none, data := op st.data,
                  done := st.done ++ [op] }

/-- Run a sequence of events against a fresh manager. -/
def dbRun (d0 : Schema) (evs : List DBEvent) : DBState :=
  evs.foldl dbStep (dbInit d0)

/-- The operations submitted by a sequence of events, in call order. -/
def dbCalls (evs : List DBEvent) : List (Schema → Schema) :=
  evs.filterMap (fun ev =>
    match ev with
    | DBEvent.call op => some op
    | DBEvent.complete => none)

/-- Apply a list of writers in order to a document. -/
def applyAll (d : Schema) (ops : List (Schema → Schema)) : Schema :=
  ops.foldl (fun acc op => op acc) d

/-- A user configuration with a 30-minute work duration. -/
def settingsThirty : Settings :=
  { DEFAULT_DATA.settings with workDuration := 30 }

/-- A work-mode timer state mid-countdown. -/
def stateMidWork : TimerState :=
  { mode := TimerMode.work, timeLeft := 100, totalTime := 1500,
    isRunning := false, isPaused := false, currentSession := 0,
    totalSessions := 0, currentTaskId := none, endAt := none }

/-- The in-memory state before `initialize()` runs. -/
def prevDefaultState : TimerState :=
  { mode := TimerMode.work, timeLeft := 1500, totalTime := 1500,
    isRunning := false, isPaused := false, currentSession := 0,
    totalSessions := 0, currentTaskId := none, endAt := none }

/-- A persisted timer claiming to be running but with no `endAt`. -/
def runningNoDeadline : LoadedTimer :=
  { mode := TimerMode.work, totalTime := some 1500, isRunning := true,
    isPaused := false, endAt := none }

/-- A task with 2 of 3 estimated pomodoros completed. -/
def taskTwoOfThree : Task :=
  { id := "t1", title := "Write report", description := none, category := none,
    priority := "medium", status := "in-progress", estimatedPomodoros := 3,
    completedPomodoros := 2, isCompleted := false, createdAt := 1, updatedAt := 1,
    completedAt := none, tags := none }

/-- A document whose only task is `taskTwoOfThree`. -/
def docWithTask : Schema := { DEFAULT_DATA with tasks := [taskTwoOfThree] }

/-- A work session over `taskTwoOfThree` that has counted down to zero. -/
def workSessionState : TimerState :=
  { mode := TimerMode.work, timeLeft := 0, totalTime := 1500, isRunning := true,
    isPaused := false, currentSession := 0, totalSessions := 0,
    currentTaskId := some "t1", endAt := some 5000 }

/-- The same scenario during a short break. -/
def breakSessionState : TimerState :=
  { workSessionState with mode := TimerMode.shortBreak, totalTime := 300 }

/-- A work session finishing its 4th pomodoro (3 already completed). -/
def fourthSessionState : TimerState :=
  { workSessionState with
    currentSession := 3, totalSessions := 3, currentTaskId := none }

/-- A five-second countdown about to be started. -/
def runningFiveSeconds : TimerState :=
  { mode := TimerMode.work, timeLeft := 5, totalTime := 1500,
    isRunning := false, isPaused := false, currentSession := 0,
    totalSessions := 0, currentTaskId := none, endAt := none }

/-- A legacy (partial) task that a v0 migration must keep. -/
def legacyTaskKeep : PartialTask :=
  { id := some "k1", title := some "keep me", description := none,
    category := none, priority := none, status := none,
    estimatedPomodoros := some 2, completedPomodoros := none,
    isCompleted := none, createdAt := none, updatedAt := none,
    completedAt := none, tags := none }

/-- A stored document carrying `version: 0` and one task. -/
def versionZeroDoc : PartialSchema :=
  { tasks := some [legacyTaskKeep], timer := none, settings := none,
    stats := none, version := some 0 }

/-- A stored document with no `version` field at all. -/
def legacyNoVersionDoc : PartialSchema :=
  { tasks := none, timer := none, settings := none, stats := none,
    version := none }

/-- A stored document from an unknown future schema version. -/
def futureVersionDoc : PartialSchema :=
  { tasks := none, timer := none, settings := none, stats := none,
    version := some 2 }

/-! ### Helper lemmas -/

theorem list_get?_set_self {α : Type} (l : List α) (i : Nat) (a : α)
    (h : i < l.length) : (l.set i a).get? i = some a := by
  induction l generalizing i with
  | nil => simp at h
  | cons x xs ih =>
    cases i with
    | zero => rfl
    | succ n => simpa using ih n (by simpa using h)

theorem list_get?_set_ne {α : Type} (l : List α) (i j : Nat) (a : α)
    (h : i ≠ j) : (l.set i a).get? j = l.get? j := by
  induction l generalizing i j with
  | nil => rfl
  | cons x xs ih =>
    cases i with
    | zero =>
      cases j with
      | zero => exact absurd rfl h
      | succ m => rfl
    | succ n =>
      cases j with
      | zero => rfl
      | succ m => simpa using ih n m (by omega)

theorem lt_length_of_get?_eq_some {α : Type} {l : List α} {i : Nat} {a : α}
    (h : l.get? i = some a) : i < l.length := by
  by_contra hn
  rw [List.get?_eq_none.mpr (by omega)] at h
  exact Option.noConfusion h

theorem ceilRemaining_eq_zero (e t : Nat) : ceilRemaining e t = 0 ↔ e ≤ t := by
  unfold ceilRemaining ceilSeconds
  rw [Nat.div_eq_zero_iff (by norm_num : (0:Nat) < 1000)]
  omega

/-! ### C9: `stop()` is idempotent -/

/-- C9.  Calling `stop()` twice in a row yields the same state as calling
it once: `timeLeft = totalTime`, not running, not paused, no `endAt`. -/
theorem stop_idempotent (s : TimerState) :
    stop (stop s) = stop s ∧ (stop s).timeLeft = (stop s).totalTime ∧
    (stop s).isRunning = false ∧ (stop s).isPaused = false ∧
    (stop s).endAt = none := by
  refine ⟨rfl, rfl, rfl, rfl, rfl⟩

/-! ### C6: what durations `reset()` restores

`reset()` does recompute both `totalTime` and `timeLeft` for the current
mode, discard the partial countdown, and clear the flags and `endAt` — but
from the hard-coded `DEFAULT_TIMES` table (`getTimeForMode`), not from the
user's settings durations, which `reset` never reads. -/

/-- C6 (amended).  `reset()` sets both `totalTime` and `timeLeft` to the
built-in default duration for the current mode (25/5/15 minutes via
`getTimeForMode`), discarding any in-progress partial countdown, and clears
the running and paused flags and `endAt`. -/
theorem reset_restores_mode_duration (s : TimerState) :
    (reset s).totalTime = getTimeForMode s.mode ∧
    (reset s).timeLeft = getTimeForMode s.mode ∧
    (reset s).isRunning = false ∧ (reset s).isPaused = false ∧
    (reset s).endAt = none := by
  refine ⟨rfl, rfl, rfl, rfl, rfl⟩

/-- C6 (counterexample).  With the settings specifying a 30-minute work
duration, `reset()` in work mode yields 1500 seconds (the built-in 25-minute
default), not the 1800 seconds the settings specify — refuting the claim
that `reset()` restores "the duration the settings specify for that mode". -/
theorem reset_ignores_settings_cex :
    (reset stateMidWork).timeLeft ≠
      getTimeForModeFromSettings settingsThirty stateMidWork.mode ∧
    (reset stateMidWork).totalTime ≠
      getTimeForModeFromSettings settingsThirty stateMidWork.mode ∧
    (reset stateMidWork).timeLeft = 1500 ∧
    getTimeForModeFromSettings settingsThirty stateMidWork.mode = 1800 := by
  refine ⟨by decide, by decide, rfl, rfl⟩

/-! ### C4: corrupt persisted timer state on `initialize()`

The stale-deadline anomalies are detected and reset, but a persisted state
with `isRunning = true` and no `endAt` is *not*: the `if (current.isRunning
&& current.endAt)` guard skips the whole recovery block, leaving the loaded
running flag in place. -/

/-- C4 (amended).  Reloading a persisted timer that claims to be running
with a (positive) `endAt` already in the past — which covers both a
negative computed remaining time and an `endAt` stale by more than
`totalTime * 1000` ms — yields a stopped engine: not running, not paused,
`timeLeft = totalTime`, no deadline.  (The third anomaly of the original
claim, running with no `endAt`, is not handled; see the counterexample.) -/
theorem initializeStore_stale_deadline_resets (prev : TimerState)
    (timer : LoadedTimer) (now total e : Nat)
    (hrun : timer.isRunning = true) (hend : timer.endAt = some e)
    (hpos : 0 < e) (hstale : e ≤ now) (htot : timer.totalTime = some total) :
    (initializeStore prev timer now).isRunning = false ∧
    (initializeStore prev timer now).isPaused = false ∧
    (initializeStore prev timer now).timeLeft = total ∧
    (initializeStore prev timer now).totalTime = total ∧
    (initializeStore prev timer now).endAt = none := by
  have hz : ceilRemaining e now = 0 := (ceilRemaining_eq_zero e now).mpr hstale
  have hne : (e != 0) = true := by simpa using Nat.pos_iff_ne_zero.mp hpos
  simp only [initializeStore, hrun, hend, htot, numTruthy, hne, Option.getD_some,
    hz, true_and]
  norm_num

/-- C4 (counterexample).  A persisted state with `isRunning = true` and no
`endAt` is one of the claim's anomalies, yet `initialize()` leaves the
engine flagged as running instead of resetting it to stopped. -/
theorem initializeStore_running_without_endAt_cex :
    runningNoDeadline.isRunning = true ∧ runningNoDeadline.endAt = none ∧
    (initializeStore prevDefaultState runningNoDeadline 1000000).isRunning = true := by
  refine ⟨rfl, rfl, by decide⟩

/-- C4 (witness).  A concrete stale deadline: persisted `endAt = 5000`,
reloaded at `now = 2000000` with `totalTime = 1500`, is reset to stopped
with `timeLeft = 1500`. -/
theorem initializeStore_stale_deadline_resets_witness :
    (initializeStore prevDefaultState
        { mode := TimerMode.work, totalTime := some 1500, isRunning := true,
          isPaused := false, endAt := some 5000 } 2000000).isRunning = false ∧
    (initializeStore prevDefaultState
        { mode := TimerMode.work, totalTime := some 1500, isRunning := true,
          isPaused := false, endAt := some 5000 } 2000000).isPaused = false ∧
    (initializeStore prevDefaultState
        { mode := TimerMode.work, totalTime := some 1500, isRunning := true,
          isPaused := false, endAt := some 5000 } 2000000).timeLeft = 1500 ∧
    (initializeStore prevDefaultState
        { mode := TimerMode.work, totalTime := some 1500, isRunning := true,
          isPaused := false, endAt := some 5000 } 2000000).totalTime = 1500 ∧
    (initializeStore prevDefaultState
        { mode := TimerMode.work, totalTime := some 1500, isRunning := true,
          isPaused := false, endAt := some 5000 } 2000000).endAt = none :=
  initializeStore_stale_deadline_resets prevDefaultState
    { mode := TimerMode.work, totalTime := some 1500, isRunning := true,
      isPaused := false, endAt := some 5000 } 2000000 1500 5000
    rfl rfl (by decide) (by decide) rfl

/-! ### Properties of `creditTask` and `updateTasks` -/

theorem creditTask_work_completedPomodoros (task : Task) (now : Nat) :
    (creditTask task TimerMode.work now).completedPomodoros =
      task.completedPomodoros + 1 := by
  simp only [creditTask]
  split
  · split <;> rfl
  · simp_all

theorem creditTask_work_completes (task : Task) (now : Nat)
    (h : task.estimatedPomodoros ≤ task.completedPomodoros + 1) :
    (creditTask task TimerMode.work now).isCompleted = true ∧
    (creditTask task TimerMode.work now).completedAt = some now := by
  unfold creditTask
  rw [if_pos ⟨rfl, by simpa using h⟩]
  exact ⟨rfl, rfl⟩

theorem creditTask_break (task : Task) (mode : TimerMode) (now : Nat)
    (h : mode ≠ TimerMode.work) :
    (creditTask task mode now).completedPomodoros = task.completedPomodoros ∧
    (creditTask task mode now).isCompleted = task.isCompleted ∧
    (creditTask task mode now).completedAt = task.completedAt ∧
    (creditTask task mode now).updatedAt = now := by
  unfold creditTask
  rw [if_neg (fun hc => h hc.1)]
  simp [h]

theorem updateTasks_found (tasks : List Task) (tid : String) (mode : TimerMode)
    (now : Nat) (idx : Nat) (task : Task) (ht : ¬ tid = "")
    (hidx : tasks.findIdx? (fun t => t.id == tid) = some idx)
    (hget : tasks.get? idx = some task) :
    (updateTasks tasks (some tid) mode now).get? idx =
      some (creditTask task mode now) := by
  simp only [updateTasks]
  rw [if_neg ht]
  simp only [hidx, hget]
  exact list_get?_set_self tasks idx _ (lt_length_of_get?_eq_some hget)

theorem updateTasks_preserves_completedPomodoros (tasks : List Task)
    (tid? : Option String) (mode : TimerMode) (now : Nat)
    (hm : mode ≠ TimerMode.work) (j : Nat) :
    ((updateTasks tasks tid? mode now).get? j).map Task.completedPomodoros =
      (tasks.get? j).map Task.completedPomodoros := by
  cases tid? with
  | none => rfl
  | some tid =>
    simp only [updateTasks]
    by_cases he : tid = ""
    · rw [if_pos he]
    · rw [if_neg he]
      cases hfi : tasks.findIdx? (fun t => t.id == tid) with
      | none => rfl
      | some idx =>
        show ((match tasks.get? idx with
               | none => tasks
               | some t => tasks.set idx (creditTask t mode now)).get? j).map
            Task.completedPomodoros = (tasks.get? j).map Task.completedPomodoros
        cases hget : tasks.get? idx with
        | none => rfl
        | some task =>
          show ((tasks.set idx (creditTask task mode now)).get? j).map
              Task.completedPomodoros = (tasks.get? j).map Task.completedPomodoros
          by_cases hij : idx = j
          · subst hij
            rw [list_get?_set_self _ _ _ (lt_length_of_get?_eq_some hget), hget]
            simp [(creditTask_break task mode now hm).1]
          · rw [list_get?_set_ne _ _ _ _ hij]

/-! ### C1: WORK completion credits the task and the statistics -/

/-- C1.  Completing a WORK session whose `currentTaskId` references an
existing task increments that task's `completedPomodoros` by exactly 1 and
`stats.totalPomodoros` by exactly 1, and when the incremented count reaches
or exceeds `estimatedPomodoros` the task is marked completed with
`completedAt` set to the completion time. -/
theorem completeSession_work_credits (s : TimerState) (data : Schema)
    (now : Nat) (dk wk mk : String) (tid : String) (idx : Nat) (task : Task)
    (hmode : s.mode = TimerMode.work) (hcur : s.currentTaskId = some tid)
    (ht : ¬ tid = "")
    (hidx : data.tasks.findIdx? (fun t => t.id == tid) = some idx)
    (hget : data.tasks.get? idx = some task) :
    ∃ t', (completeSession s data now dk wk mk).2.tasks.get? idx = some t' ∧
      t'.completedPomodoros = task.completedPomodoros + 1 ∧
      (task.estimatedPomodoros ≤ task.completedPomodoros + 1 →
        t'.isCompleted = true ∧ t'.completedAt = some now) ∧
      (completeSession s data now dk wk mk).2.stats.totalPomodoros =
        data.stats.totalPomodoros + 1 := by
  refine ⟨creditTask task TimerMode.work now, ?_, ?_, ?_, ?_⟩
  · show (updateTasks data.tasks s.currentTaskId s.mode now).get? idx = _
    rw [hcur, hmode]
    exact updateTasks_found data.tasks tid TimerMode.work now idx task ht hidx hget
  · exact creditTask_work_completedPomodoros task now
  · exact fun h => creditTask_work_completes task now h
  · show (updateStats s.mode s.totalTime data.stats dk wk mk).totalPomodoros = _
    rw [hmode]
    simp [updateStats]

/-- C1 (witness). -/
theorem completeSession_work_credits_witness :
    ∃ t', (completeSession workSessionState docWithTask 777 "d" "w" "m").2.tasks.get? 0 =
        some t' ∧
      t'.completedPomodoros = taskTwoOfThree.completedPomodoros + 1 ∧
      (taskTwoOfThree.estimatedPomodoros ≤ taskTwoOfThree.completedPomodoros + 1 →
        t'.isCompleted = true ∧ t'.completedAt = some 777) ∧
      (completeSession workSessionState docWithTask 777 "d" "w" "m").2.stats.totalPomodoros =
        docWithTask.stats.totalPomodoros + 1 :=
  completeSession_work_credits workSessionState docWithTask 777 "d" "w" "m"
    "t1" 0 taskTwoOfThree rfl rfl (by decide) (by decide) rfl

/-! ### C5: break completions leave stats and task credit untouched -/

/-- C5.  Completing a SHORT_BREAK or LONG_BREAK session leaves the whole
statistics record (`totalPomodoros`, `totalWorkTime` and the
daily/weekly/monthly counters) unchanged, and every task's
`completedPomodoros` unchanged. -/
theorem completeSession_break_frame (s : TimerState) (data : Schema)
    (now : Nat) (dk wk mk : String)
    (hb : s.mode = TimerMode.shortBreak ∨ s.mode = TimerMode.longBreak) :
    (completeSession s data now dk wk mk).2.stats = data.stats ∧
    ∀ j : Nat,
      ((completeSession s data now dk wk mk).2.tasks.get? j).map Task.completedPomodoros =
        (data.tasks.get? j).map Task.completedPomodoros := by
  have hm : s.mode ≠ TimerMode.work := by
    rcases hb with h | h <;> rw [h] <;> intro hc <;> exact TimerMode.noConfusion hc
  constructor
  · show updateStats s.mode s.totalTime data.stats dk wk mk = data.stats
    simp [updateStats, hm]
  · intro j
    show ((updateTasks data.tasks s.currentTaskId s.mode now).get? j).map _ = _
    exact updateTasks_preserves_completedPomodoros data.tasks s.currentTaskId
      s.mode now hm j

/-- C5 (witness). -/
theorem completeSession_break_frame_witness :
    (completeSession breakSessionState docWithTask 777 "d" "w" "m").2.stats =
      docWithTask.stats ∧
    ((completeSession breakSessionState docWithTask 777 "d" "w" "m").2.tasks.get? 0).map
        Task.completedPomodoros =
      (docWithTask.tasks.get? 0).map Task.completedPomodoros :=
  ⟨(completeSession_break_frame breakSessionState docWithTask 777 "d" "w" "m"
      (Or.inl rfl)).1,
   (completeSession_break_frame breakSessionState docWithTask 777 "d" "w" "m"
      (Or.inl rfl)).2 0⟩

/-! ### C10: break completions still rewrite the referenced task -/

/-- C10.  Completing a break session while `currentTaskId` references an
existing task still rewrites that task in the produced document, setting its
`updatedAt` to the completion time even though `completedPomodoros`,
`isCompleted` and `completedAt` are unchanged. -/
theorem completeSession_break_touches_task (s : TimerState) (data : Schema)
    (now : Nat) (dk wk mk : String) (tid : String) (idx : Nat) (task : Task)
    (hb : s.mode = TimerMode.shortBreak ∨ s.mode = TimerMode.longBreak)
    (hcur : s.currentTaskId = some tid) (ht : ¬ tid = "")
    (hidx : data.tasks.findIdx? (fun t => t.id == tid) = some idx)
    (hget : data.tasks.get? idx = some task) :
    ∃ t', (completeSession s data now dk wk mk).2.tasks.get? idx = some t' ∧
      t'.updatedAt = now ∧
      t'.completedPomodoros = task.completedPomodoros ∧
      t'.isCompleted = task.isCompleted ∧
      t'.completedAt = task.completedAt := by
  have hm : s.mode ≠ TimerMode.work := by
    rcases hb with h | h <;> rw [h] <;> intro hc <;> exact TimerMode.noConfusion hc
  refine ⟨creditTask task s.mode now, ?_, ?_, ?_, ?_, ?_⟩
  · show (updateTasks data.tasks s.currentTaskId s.mode now).get? idx = _
    rw [hcur]
    exact updateTasks_found data.tasks tid s.mode now idx task ht hidx hget
  · exact (creditTask_break task s.mode now hm).2.2.2
  · exact (creditTask_break task s.mode now hm).1
  · exact (creditTask_break task s.mode now hm).2.1
  · exact (creditTask_break task s.mode now hm).2.2.1

/-- C10 (witness).  The completion time 777 differs from the stored
`updatedAt` of 1, so the task value genuinely changes. -/
theorem completeSession_break_touches_task_witness :
    ∃ t', (completeSession breakSessionState docWithTask 777 "d" "w" "m").2.tasks.get? 0 =
        some t' ∧
      t'.updatedAt = 777 ∧
      t'.completedPomodoros = taskTwoOfThree.completedPomodoros ∧
      t'.isCompleted = taskTwoOfThree.isCompleted ∧
      t'.completedAt = taskTwoOfThree.completedAt :=
  completeSession_break_touches_task breakSessionState docWithTask 777 "d" "w" "m"
    "t1" 0 taskTwoOfThree (Or.inl rfl) rfl (by decide) (by decide) rfl

/-! ### C2: long-break cadence and the next phase -/

/-- C2.  With `longBreakInterval = 4`, a WORK completion transitions to
LONG_BREAK exactly when the post-increment session counter is divisible by
4 (the 4th, 8th, 12th... completion) and to SHORT_BREAK otherwise, and any
break completion transitions back to WORK; in each case the new `totalTime`
is the settings duration (minutes × 60) for the chosen mode. -/
theorem completeSession_next_phase (s : TimerState) (data : Schema)
    (now : Nat) (dk wk mk : String)
    (hint : data.settings.longBreakInterval = 4) :
    (s.mode = TimerMode.work →
      ((s.currentSession + 1) % 4 = 0 →
        (completeSession s data now dk wk mk).1.mode = TimerMode.longBreak ∧
        (completeSession s data now dk wk mk).1.totalTime =
          data.settings.longBreakDuration * 60) ∧
      (¬ (s.currentSession + 1) % 4 = 0 →
        (completeSession s data now dk wk mk).1.mode = TimerMode.shortBreak ∧
        (completeSession s data now dk wk mk).1.totalTime =
          data.settings.shortBreakDuration * 60)) ∧
    (s.mode ≠ TimerMode.work →
      (completeSession s data now dk wk mk).1.mode = TimerMode.work ∧
      (completeSession s data now dk wk mk).1.totalTime =
        data.settings.workDuration * 60) := by
  constructor
  · intro hw
    constructor
    · intro hmod
      unfold completeSession computeNext
      simp only [hw, hint]
      split <;> simp_all
    · intro hmod
      unfold completeSession computeNext
      simp only [hw, hint]
      split <;> simp_all
  · intro hw
    unfold completeSession computeNext
    simp only [if_neg hw]
    split <;> simp_all

/-- C2 (witness).  Completing the 4th WORK session under the default
settings (`longBreakInterval = 4`) yields a LONG_BREAK of
`longBreakDuration * 60` seconds. -/
theorem completeSession_next_phase_witness :
    (completeSession fourthSessionState DEFAULT_DATA 777 "d" "w" "m").1.mode =
      TimerMode.longBreak ∧
    (completeSession fourthSessionState DEFAULT_DATA 777 "d" "w" "m").1.totalTime =
      DEFAULT_DATA.settings.longBreakDuration * 60 :=
  ((completeSession_next_phase fourthSessionState DEFAULT_DATA 777 "d" "w" "m"
      rfl).1 rfl).1 (by decide)

/-! ### C3: drift correction on every tick -/

theorem ceilRemaining_at_deadline_start (L t0 : Nat) :
    ceilRemaining (t0 + L * 1000) t0 = L := by
  unfold ceilRemaining ceilSeconds
  have h1 : t0 + L * 1000 - t0 = L * 1000 := by omega
  rw [h1, Nat.mul_comm, Nat.mul_add_div (by norm_num)]
  norm_num

/-- One tick preserves the drift invariant: if `timeLeft` was the
deadline-derived value at some observation time `t0`, then after a tick at
any later time `t1` it is the deadline-derived value at `t1`. -/
theorem onTick_drift_step (s : TimerState) (e t0 t1 : Nat)
    (hrun : s.isRunning = true) (hend : s.endAt = some e)
    (hinv : s.timeLeft = ceilRemaining e t0) (hle : t0 ≤ t1) :
    (onTick s t1).isRunning = true ∧ (onTick s t1).endAt = some e ∧
    (onTick s t1).timeLeft = ceilRemaining e t1 := by
  by_cases hz : 0 < s.timeLeft
  · have hepos : ¬ e = 0 := by
      intro h0
      rw [hinv, h0, (ceilRemaining_eq_zero 0 t0).mpr (Nat.zero_le t0)] at hz
      exact absurd hz (lt_irrefl 0)
    simp only [onTick]
    rw [if_pos ⟨hrun, hz⟩]
    refine ⟨hrun, hend, ?_⟩
    show (match s.endAt with
          | some e => if e = 0 then s.timeLeft - 1 else ceilRemaining e t1
          | none => s.timeLeft - 1) = ceilRemaining e t1
    rw [hend]
    show (if e = 0 then s.timeLeft - 1 else ceilRemaining e t1) = ceilRemaining e t1
    rw [if_neg hepos]
  · have hzero : s.timeLeft = 0 := by omega
    have hstop : e ≤ t0 := (ceilRemaining_eq_zero e t0).mp (hinv.symm.trans hzero)
    have hz1 : ceilRemaining e t1 = 0 :=
      (ceilRemaining_eq_zero e t1).mpr (le_trans hstop hle)
    simp only [onTick]
    rw [if_neg (fun hc => hz hc.2)]
    exact ⟨hrun, hend, hzero.trans hz1.symm⟩

/-- The drift invariant propagated along an arbitrary monotone sequence of
tick times. -/
theorem foldl_onTick_drift (ticks : List Nat) :
    ∀ (s : TimerState) (e t0 tLast : Nat), s.isRunning = true →
      s.endAt = some e → s.timeLeft = ceilRemaining e t0 →
      List.Chain (· ≤ ·) t0 ticks → ticks.getLast? = some tLast →
      (ticks.foldl onTick s).timeLeft = ceilRemaining e tLast := by
  induction ticks with
  | nil =>
    intro s e t0 tLast _ _ _ _ hlast
    exact absurd hlast (by simp)
  | cons t ts ih =>
    intro s e t0 tLast hrun hend hinv hchain hlast
    rw [List.chain_cons] at hchain
    have hstep := onTick_drift_step s e t0 t hrun hend hinv hchain.1
    rw [List.foldl_cons]
    cases ts with
    | nil =>
      have ht : tLast = t := by
        simp only [List.getLast?_singleton] at hlast
        exact (Option.some.inj hlast).symm
      rw [ht]
      simpa using hstep.2.2
    | cons t2 ts2 =>
      exact ih (onTick s t) e t tLast hstep.1 hstep.2.1 hstep.2.2 hchain.2
        (by simpa [List.getLast?_cons_cons] using hlast)

/-- C3.  Starting the timer fixes the wall-clock deadline
`endAt = t0 + timeLeft * 1000`; for every sequence of ticks delivered at
arbitrary (monotone, however irregular) times, `timeLeft` after each tick
equals `ceil(max(0, endAt - now) / 1000)` at that tick's time — stated for
the last tick of an arbitrary sequence, hence for every tick of every
sequence.  In particular the result never depends on the naive per-tick
decrement: the deadline-derived value always wins. -/
theorem tick_drift_correction (s0 : TimerState) (t0 : Nat) (ticks : List Nat)
    (tLast : Nat) (hlast : ticks.getLast? = some tLast)
    (hchain : List.Chain (· ≤ ·) t0 ticks) :
    (ticks.foldl onTick (start s0 t0)).timeLeft =
      ceilRemaining (t0 + s0.timeLeft * 1000) tLast :=
  foldl_onTick_drift ticks (start s0 t0) (t0 + s0.timeLeft * 1000) t0 tLast
    rfl rfl (ceilRemaining_at_deadline_start s0.timeLeft t0).symm hchain hlast

/-- C3 (witness).  A 5-second countdown started at `t0 = 1000` ms, with
irregular ticks at 1500 ms and 3700 ms, shows `timeLeft` equal to the
deadline-derived value at the last tick. -/
theorem tick_drift_correction_witness :
    ([1500, 3700].foldl onTick (start runningFiveSeconds 1000)).timeLeft =
      ceilRemaining (1000 + runningFiveSeconds.timeLeft * 1000) 3700 :=
  tick_drift_correction runningFiveSeconds 1000 [1500, 3700] 3700 rfl
    (by norm_num [List.chain_cons])

/-! ### C7: serialization of concurrent writes -/

theorem applyAll_append_one (d : Schema) (ops : List (Schema → Schema))
    (op : Schema → Schema) :
    applyAll d (ops ++ [op]) = op (applyAll d ops) := by
  simp [applyAll, List.foldl_append]

theorem dbCalls_cons (ev : DBEvent) (rest : List DBEvent) :
    dbCalls (ev :: rest) = dbCalls [ev] ++ dbCalls rest := by
  cases ev <;> simp [dbCalls]

theorem startNextFromQueue_spec (st : DBState) (hf : st.inFlight = none)
    (hl : st.writeLock = false) :
    (startNextFromQueue st).writeLock = (startNextFromQueue st).inFlight.isSome ∧
    (startNextFromQueue st).data = st.data ∧
    (startNextFromQueue st).done = st.done ∧
    (startNextFromQueue st).done ++ (startNextFromQueue st).inFlight.toList ++
        (startNextFromQueue st).writeQueue =
      st.done ++ st.writeQueue := by
  unfold startNextFromQueue
  cases hq : st.writeQueue with
  | nil => simp [hf, hl, hq]
  | cons h t => simp [hf, hl, hq]

theorem dbStep_call_locked (st : DBState) (op : Schema → Schema)
    (hl : st.writeLock = true) :
    dbStep st (DBEvent.call op) = { st with writeQueue := st.writeQueue ++ [op] } := by
  show (if st.writeLock = true then
          ({ st with writeQueue := st.writeQueue ++ [op] } : DBState)
        else startNextFromQueue { st with writeQueue := st.writeQueue ++ [op] }) = _
  rw [if_pos hl]

theorem dbStep_call_free (st : DBState) (op : Schema → Schema)
    (hl : st.writeLock = false) :
    dbStep st (DBEvent.call op) =
      startNextFromQueue { st with writeQueue := st.writeQueue ++ [op] } := by
  show (if st.writeLock = true then
          ({ st with writeQueue := st.writeQueue ++ [op] } : DBState)
        else startNextFromQueue { st with writeQueue := st.writeQueue ++ [op] }) = _
  rw [if_neg (by simp [hl])]

theorem dbStep_complete_none (st : DBState) (hof : st.inFlight = none) :
    dbStep st DBEvent.complete = st := by
  show (match st.inFlight with
        | none => st
        | some op =>
          startNextFromQueue
            { st with writeLock := false, inFlight := none, data := op st.data,
                      done := st.done ++ [op] }) = st
  rw [hof]

theorem dbStep_complete_some (st : DBState) (op : Schema → Schema)
    (hof : st.inFlight = some op) :
    dbStep st DBEvent.complete =
      startNextFromQueue
        { st with writeLock := false, inFlight := none, data := op st.data,
                  done := st.done ++ [op] } := by
  show (match st.inFlight with
        | none => st
        | some op =>
          startNextFromQueue
            { st with writeLock := false, inFlight := none, data := op st.data,
                      done := st.done ++ [op] }) = _
  rw [hof]

/-- One event preserves the queue invariant: the lock tracks the in-flight
writer, the stored document is the in-order composition of the completed
writers, and completed + in-flight + queued writers list the calls so far
in call order. -/
theorem dbStep_preserves (st : DBState) (ev : DBEvent) (d0 : Schema)
    (called : List (Schema → Schema))
    (h1 : st.writeLock = st.inFlight.isSome)
    (h2 : st.data = applyAll d0 st.done)
    (h3 : st.done ++ st.inFlight.toList ++ st.writeQueue = called) :
    (dbStep st ev).writeLock = (dbStep st ev).inFlight.isSome ∧
    (dbStep st ev).data = applyAll d0 (dbStep st ev).done ∧
    (dbStep st ev).done ++ (dbStep st ev).inFlight.toList ++
        (dbStep st ev).writeQueue =
      called ++ dbCalls [ev] := by
  cases ev with
  | call op =>
    by_cases hl : st.writeLock = true
    · rw [dbStep_call_locked st op hl]
      refine ⟨h1, h2, ?_⟩
      show st.done ++ st.inFlight.toList ++ (st.writeQueue ++ [op]) =
        called ++ dbCalls [DBEvent.call op]
      rw [← h3]
      simp [dbCalls]
    · have hl' : st.writeLock = false := by
        cases hb : st.writeLock
        · rfl
        · exact absurd hb hl
      have hf : st.inFlight = none := by
        cases hof : st.inFlight with
        | none => rfl
        | some o => rw [hl', hof] at h1; exact Bool.noConfusion h1
      rw [dbStep_call_free st op hl']
      have hspec := startNextFromQueue_spec
        { st with writeQueue := st.writeQueue ++ [op] } hf hl'
      refine ⟨hspec.1, ?_, ?_⟩
      · rw [hspec.2.1, hspec.2.2.1]
        exact h2
      · rw [hspec.2.2.2]
        show st.done ++ (st.writeQueue ++ [op]) = called ++ dbCalls [DBEvent.call op]
        rw [← h3, hf]
        simp [dbCalls]
  | complete =>
    cases hof : st.inFlight with
    | none =>
      rw [dbStep_complete_none st hof]
      refine ⟨h1, h2, ?_⟩
      rw [← h3, hof]
      simp [dbCalls]
    | some op =>
      rw [dbStep_complete_some st op hof]
      have hspec := startNextFromQueue_spec
        { st with writeLock := false, inFlight := none, data := op st.data,
                  done := st.done ++ [op] } rfl rfl
      refine ⟨hspec.1, ?_, ?_⟩
      · rw [hspec.2.1, hspec.2.2.1]
        show op st.data = applyAll d0 (st.done ++ [op])
        rw [applyAll_append_one, ← h2]
      · rw [hspec.2.2.2]
        show st.done ++ [op] ++ st.writeQueue = called ++ dbCalls [DBEvent.complete]
        rw [← h3, hof]
        simp [dbCalls]

/-- The invariant holds after any event sequence from any invariant state. -/
theorem dbFold_inv (evs : List DBEvent) :
    ∀ (st : DBState) (d0 : Schema) (called : List (Schema → Schema)),
      st.writeLock = st.inFlight.isSome → st.data = applyAll d0 st.done →
      st.done ++ st.inFlight.toList ++ st.writeQueue = called →
      (evs.foldl dbStep st).writeLock = (evs.foldl dbStep st).inFlight.isSome ∧
      (evs.foldl dbStep st).data = applyAll d0 (evs.foldl dbStep st).done ∧
      (evs.foldl dbStep st).done ++ (evs.foldl dbStep st).inFlight.toList ++
          (evs.foldl dbStep st).writeQueue =
        called ++ dbCalls evs := by
  induction evs with
  | nil =>
    intro st d0 called h1 h2 h3
    exact ⟨h1, h2, by simpa [dbCalls] using h3⟩
  | cons ev rest ih =>
    intro st d0 called h1 h2 h3
    rw [List.foldl_cons]
    have hstep := dbStep_preserves st ev d0 called h1 h2 h3
    have hrest := ih (dbStep st ev) d0 (called ++ dbCalls [ev])
      hstep.1 hstep.2.1 hstep.2.2
    refine ⟨hrest.1, hrest.2.1, ?_⟩
    rw [hrest.2.2, dbCalls_cons ev rest]
    simp

/-- C7.  For every interleaving of `safeWrite` calls and write completions
against a fresh `DatabaseManager`: the `writeLock` is held exactly while a
single writer is in flight (at most one physical write at a time); the
stored document always equals the in-call-order composition of the
completed writers applied to the initial document, so each writer sees the
result of the previous write and no mutation is clobbered; and completed,
in-flight and queued writers together are exactly the calls in call order.
In particular, two overlapping writes — the second issued before the first
resolves — leave `g (f d0)`: both mutations present. -/
theorem dbManager_serializes (d0 : Schema) (evs : List DBEvent) :
    ((dbRun d0 evs).writeLock = (dbRun d0 evs).inFlight.isSome ∧
     (dbRun d0 evs).data = applyAll d0 (dbRun d0 evs).done ∧
     (dbRun d0 evs).done ++ (dbRun d0 evs).inFlight.toList ++
         (dbRun d0 evs).writeQueue =
       dbCalls evs) ∧
    ∀ f g : Schema → Schema,
      (dbRun d0 [DBEvent.call f, DBEvent.call g, DBEvent.complete,
          DBEvent.complete]).data = g (f d0) := by
  constructor
  · have := dbFold_inv evs (dbInit d0) d0 [] rfl rfl rfl
    simpa using this
  · intro f g
    rfl

/-! ### C8: migration on read

`migrateData` routes on `!('version' in data) || !data.version`: an absent
*or falsy* version is treated as legacy.  A stored `version: 0` is
therefore migrated field-by-field like a legacy document, not replaced by
the default document — refuting the original claim that every version
other than "absent" and 1 falls back to the default wholesale. -/

/-- C8 (amended).  A document whose `version` is absent or falsy (0) is
treated as legacy: it is mapped by `migrateFromV0` field-by-field onto the
current shape (defaults for missing fields), producing a fully populated
document with `version` set to the current schema version 1.  A document
with an unknown truthy `version` (neither 0 nor 1) is replaced by the
default document wholesale. -/
theorem migrateData_versioning (d : PartialSchema) (now : Nat) :
    (d.version = none ∨ d.version = some 0 →
      migrateData d now = Schema.toPartial (migrateFromV0 d now) ∧
      (migrateData d now).version = some 1 ∧
      isCompleteDoc (migrateData d now) = true) ∧
    (∀ v, d.version = some v → ¬ v = 0 → ¬ v = 1 →
      migrateData d now = Schema.toPartial DEFAULT_DATA) := by
  constructor
  · intro h
    unfold migrateData
    rw [if_pos h]
    exact ⟨rfl, rfl, rfl⟩
  · intro v hv h0 h1
    unfold migrateData
    rw [if_neg (by rintro (h | h) <;> rw [h] at hv <;> simp_all)]
    rw [hv]
    show (match some v with
          | some 1 => d
          | _ => Schema.toPartial DEFAULT_DATA) = Schema.toPartial DEFAULT_DATA
    split
    · rename_i heq
      exact absurd (Option.some.inj heq) h1
    · rfl

/-- C8 (counterexample).  `versionZeroDoc` has `version = 0` — neither
absent nor 1 — yet `migrateData` does not replace it by the default
document: the legacy task survives the migration (and `version` becomes 1).
The original claim's "unknown version ⇒ default document" case is wrong for
the falsy version 0. -/
theorem migrateData_version_zero_cex :
    versionZeroDoc.version = some 0 ∧
    ¬ versionZeroDoc.version = none ∧ ¬ versionZeroDoc.version = some 1 ∧
    ¬ migrateData versionZeroDoc 5 = Schema.toPartial DEFAULT_DATA ∧
    (migrateData versionZeroDoc 5).tasks =
      some [Task.toPartial (migrateTaskFromV0 legacyTaskKeep 5)] := by
  refine ⟨rfl, by decide, by decide, ?_, rfl⟩
  intro h
  have htasks := congrArg PartialSchema.tasks h
  revert htasks
  decide

/-- C8 (witness).  A document with no `version` migrates to a complete
version-1 document; a `version: 2` document is replaced by the default. -/
theorem migrateData_versioning_witness :
    (migrateData legacyNoVersionDoc 7).version = some 1 ∧
    isCompleteDoc (migrateData legacyNoVersionDoc 7) = true ∧
    migrateData futureVersionDoc 7 = Schema.toPartial DEFAULT_DATA :=
  ⟨((migrateData_versioning legacyNoVersionDoc 7).1 (Or.inl rfl)).2.1,
   ((migrateData_versioning legacyNoVersionDoc 7).1 (Or.inl rfl)).2.2,
   (migrateData_versioning futureVersionDoc 7).2 2 rfl (by decide) (by decide)⟩

end TicTomoto
